import Mathlib

/-!
Verification of the go-stremio addon SDK (github.com/Dasio/go-stremio).

This file gives a shallow embedding of the request-handling core of the SDK:
user-data decoding (`decodeUserData`), the ETag fingerprint
(`generateETag`), the catalog / stream / manifest handlers
(`createCatalogHandler`, `createStreamHandler`, `createManifestHandler`),
construction-time validation (`NewAddon`), the Go 1.22+ `http.ServeMux`
pattern validation that `Run` relies on, and the route-matcher middleware
(`addRouteMatcherMiddleware`).

Go strings are embedded as lists of byte values (`GoStr`); machine
integers as `Nat`/`Int` with explicit 32-bit masking where overflow
matters (SHA-256).  Fallible operations return `Option`/`Except`, or an
explicit `value × error` pair where the Go code returns such a pair.
-/

namespace GoStremio

/-- A Go string, as its list of byte values.  All strings appearing in the
claims are ASCII, so bytes and runes coincide. -/
abbrev GoStr := List Nat

/-- Byte list of an ASCII string literal (each char is one byte). -/
def gs (s : String) : GoStr := s.data.map Char.toNat

/-- `strings.TrimSuffix s suffix`: drop `suffix` from the end of `s` once,
if present; otherwise return `s` unchanged. -/
def trimSuffix (s suffix : GoStr) : GoStr :=
  if suffix.isSuffixOf s then s.take (s.length - suffix.length) else s

/-- Decimal digits of a positive number (fuel-based so it reduces in the kernel). -/
def natDigits : Nat → Nat → List Nat
  | 0, _ => []
  | _, 0 => []
  | fuel + 1, n => natDigits fuel (n / 10) ++ [48 + n % 10]

/-- Decimal representation of a `Nat`, as ASCII bytes. -/
def natToDec (n : Nat) : GoStr := if n = 0 then [48] else natDigits n n

/-- `strconv.Itoa` for a Go `int`. -/
def intToDec (i : Int) : GoStr :=
  if i < 0 then 45 :: natToDec i.natAbs else natToDec i.toNat

/-! ## SHA-256 (Go `crypto/sha256`), over byte lists -/

/-- Truncate to 32 bits. -/
def w32 (x : Nat) : Nat := x &&& 0xffffffff

/-- 32-bit rotate right. -/
def rotr32 (n x : Nat) : Nat := w32 ((x >>> n) ||| (x <<< (32 - n)))

/-- The 64 round constants of SHA-256, written in decimal. -/
def sha256K : List Nat :=
  [1116352408, 1899447441, 3049323471, 3921009573, 961987163, 1508970993,
   2453635748, 2870763221, 3624381080, 310598401, 607225278, 1426881987,
   1925078388, 2162078206, 2614888103, 3248222580, 3835390401, 4022224774,
   264347078, 604807628, 770255983, 1249150122, 1555081692, 1996064986,
   2554220882, 2821834349, 2952996808, 3210313671, 3336571891, 3584528711,
   113926993, 338241895, 666307205, 773529912, 1294757372, 1396182291,
   1695183700, 1986661051, 2177026350, 2456956037, 2730485921, 2820302411,
   3259730800, 3345764771, 3516065817, 3600352804, 4094571909, 275423344,
   430227734, 506948616, 659060556, 883997877, 958139571, 1322822218,
   1537002063, 1747873779, 1955562222, 2024104815, 2227730452, 2361852424,
   2428436474, 2756734187, 3204031479, 3329325298]

/-- The initial hash state of SHA-256, written in decimal. -/
def sha256H0 : List Nat :=
  [1779033703, 3144134277, 1013904242, 2773480762, 1359893119, 2600822924,
   528734635, 1541459225]

/-- Pad the message to a multiple of 64 bytes: append `0x80`, zeros, and the
64-bit big-endian bit length. -/
def sha256pad (msg : List Nat) : List Nat :=
  let len := msg.length
  let bitLen := len * 8
  let zeroCount := (55 - len % 64 + 64) % 64
  msg ++ [0x80] ++ List.replicate zeroCount 0 ++
    ((List.range 8).map fun i => (bitLen >>> ((7 - i) * 8)) &&& 0xff)

/-- Split a list into chunks of 64 (fuel-based structural recursion). -/
def chunks64Aux : Nat → List Nat → List (List Nat)
  | 0, _ => []
  | _, [] => []
  | fuel + 1, l => l.take 64 :: chunks64Aux fuel (l.drop 64)

def chunks64 (l : List Nat) : List (List Nat) := chunks64Aux l.length l

/-- The 16 big-endian 32-bit words of a 64-byte block. -/
def blockWords (block : List Nat) : List Nat :=
  (List.range 16).map fun i =>
    match block.drop (4 * i) with
    | b0 :: b1 :: b2 :: b3 :: _ => (((b0 <<< 8 ||| b1) <<< 8 ||| b2) <<< 8) ||| b3
    | _ => 0

/-- Extend the 16 words of a block to the 64-word message schedule. -/
def sha256schedule (ws : List Nat) : List Nat :=
  (List.range 48).foldl
    (fun w _ =>
      let i := w.length
      let g := fun (j : Nat) => w.getD (i - j) 0
      let s0 := (rotr32 7 (g 15)) ^^^ (rotr32 18 (g 15)) ^^^ ((g 15) >>> 3)
      let s1 := (rotr32 17 (g 2)) ^^^ (rotr32 19 (g 2)) ^^^ ((g 2) >>> 10)
      w ++ [w32 (g 16 + s0 + g 7 + s1)])
    ws

/-- One round of the SHA-256 compression function on the 8-word state. -/
def sha256round (st : List Nat) (kw : Nat × Nat) : List Nat :=
  match st with
  | [a, b, c, d, e, f, g, h] =>
    let s1 := (rotr32 6 e) ^^^ (rotr32 11 e) ^^^ (rotr32 25 e)
    let ch := (e &&& f) ^^^ ((0xffffffff ^^^ e) &&& g)
    let t1 := w32 (h + s1 + ch + kw.1 + kw.2)
    let s0 := (rotr32 2 a) ^^^ (rotr32 13 a) ^^^ (rotr32 22 a)
    let mj := (a &&& b) ^^^ (a &&& c) ^^^ (b &&& c)
    let t2 := w32 (s0 + mj)
    [w32 (t1 + t2), a, b, c, w32 (d + t1), e, f, g]
  | other => other

def sha256block (hstate : List Nat) (block : List Nat) : List Nat :=
  let w := sha256schedule (blockWords block)
  let st := (sha256K.zip w).foldl sha256round hstate
  (hstate.zip st).map fun p => w32 (p.1 + p.2)

/-- SHA-256 digest (32 bytes) of a byte list (`sha256.Sum256`). -/
def sha256 (msg : List Nat) : List Nat :=
  let hs := (chunks64 (sha256pad msg)).foldl sha256block sha256H0
  hs.flatMap fun h => (List.range 4).map fun i => (h >>> ((3 - i) * 8)) &&& 0xff

def hexDigit (n : Nat) : Nat := if n < 10 then 48 + n else 87 + n

/-- Lowercase hex encoding of bytes, as `hex.EncodeToString` produces. -/
def hexEncode (bs : List Nat) : GoStr :=
  bs.flatMap fun b => [hexDigit (b >>> 4), hexDigit (b &&& 0xf)]

/-! ## Base64url and percent decoding (Go `encoding/base64`, `net/url`) -/

/-- Value of one character of the base64 URL alphabet (A-Z a-z 0-9 - _);
`none` for anything else, including the padding character. -/
def base64urlDecChar (c : Nat) : Option Nat :=
  if 65 ≤ c ∧ c ≤ 90 then some (c - 65)
  else if 97 ≤ c ∧ c ≤ 122 then some (c - 71)
  else if 48 ≤ c ∧ c ≤ 57 then some (c + 4)
  else if c = 45 then some 62
  else if c = 95 then some 63
  else none

def base64urlSextets : GoStr → Option (List Nat)
  | [] => some []
  | c :: rest =>
    match base64urlDecChar c, base64urlSextets rest with
    | some s, some ss => some (s :: ss)
    | _, _ => none

/-- Regroup sextets into bytes.  A trailing group of one sextet is invalid;
trailing groups of two or three sextets yield one or two bytes (the Go
default decoder ignores nonzero trailing bits). -/
def base64Regroup : List Nat → Option (List Nat)
  | [] => some []
  | [_] => none
  | [s0, s1] => some [((s0 <<< 2) ||| (s1 >>> 4)) &&& 0xff]
  | [s0, s1, s2] =>
    some [((s0 <<< 2) ||| (s1 >>> 4)) &&& 0xff, (((s1 &&& 0xf) <<< 4) ||| (s2 >>> 2)) &&& 0xff]
  | s0 :: s1 :: s2 :: s3 :: rest =>
    match base64Regroup rest with
    | some bs =>
      some ([((s0 <<< 2) ||| (s1 >>> 4)) &&& 0xff,
             (((s1 &&& 0xf) <<< 4) ||| (s2 >>> 2)) &&& 0xff,
             (((s2 &&& 3) <<< 6) ||| s3) &&& 0xff] ++ bs)
    | none => none

/-- `base64.URLEncoding.WithPadding(base64.NoPadding).DecodeString`:
URL-safe alphabet, no padding accepted (a `=` is an invalid character).
Inputs containing CR/LF do not occur here, so the newline
skipping is not modelled. -/
def base64urlNoPadDecode (s : GoStr) : Option (List Nat) :=
  (base64urlSextets s).bind base64Regroup

/-- Hex digit value for percent decoding. -/
def hexVal (c : Nat) : Option Nat :=
  if 48 ≤ c ∧ c ≤ 57 then some (c - 48)
  else if 97 ≤ c ∧ c ≤ 102 then some (c - 87)
  else if 65 ≤ c ∧ c ≤ 70 then some (c - 55)
  else none

/-- `url.PathUnescape`: replace every `%XX` by the byte it denotes; a `%`
not followed by two hex digits is an invalid URL escape.  In path mode
`+` is left as-is. -/
def pathUnescape : GoStr → Option GoStr
  | [] => some []
  | 37 :: h1 :: h2 :: rest =>
    match hexVal h1, hexVal h2 with
    | some a, some b => (pathUnescape rest).map ((a * 16 + b) :: ·)
    | _, _ => none
  | 37 :: _ => none
  | c :: rest => (pathUnescape rest).map (c :: ·)

/-! ## Errors and user data -/

/-- A Go `error` value: the `ErrNotFound` sentinel, a plain message, or a
wrapped error.

Modelled from the spec: the sentinel not-found error `ErrNotFound`
("a distinguished error value meaning no content for this id") is
referenced by `handlers.go` but its declaring file is not in the sources. -/
inductive GoErr where
  | notFound : GoErr
  | msg : GoStr → GoErr
  | wrap : GoStr → GoErr → GoErr
deriving DecidableEq

/-- The sentinel not-found error value. -/
def ErrNotFound : GoErr := GoErr.notFound

/-- `errors.Is e target`: `e` equals the target or wraps an error that does. -/
def errorsIs : GoErr → GoErr → Bool
  | GoErr.wrap m inner, t => (GoErr.wrap m inner = t) || errorsIs inner t
  | e, t => e = t

/-- A Go `any` value as produced by `decodeUserData` and consumed by the
handler callbacks: the nil interface, the empty string, or a (non-nil)
pointer to a decoded value of the registered type. -/
inductive GoAny (α : Type) where
  | goNil : GoAny α
  | emptyString : GoAny α
  | typed : α → GoAny α
deriving DecidableEq

/-- `decodeUserData data t logger userDataIsBase64` from `handlers.go`,
returning the same `(any, error)` pair as the Go function.  The registered
type `t` is carried as an optional unmarshalling function
(`json.Unmarshal` into a freshly allocated value of the registered type:
`none` = unmarshal error, `some v` = success). -/
def decodeUserData {α : Type} (data : GoStr) (t : Option (GoStr → Option α))
    (userDataIsBase64 : Bool) : GoAny α × Option GoErr :=
  if data = [] then
    -- No user data provided, return empty string (as per SDK docs)
    (GoAny.emptyString, none)
  else
    match t with
    | none =>
      -- No user data type registered, return empty string (as per SDK docs)
      (GoAny.emptyString, none)
    | some unmarshal =>
      let decoded : Option GoStr :=
        if userDataIsBase64 then
          -- Remove padding so that both Base64URL values with and without padding work.
          base64urlNoPadDecode (trimSuffix data (gs "="))
        else
          pathUnescape data
      match decoded with
      | none => (GoAny.goNil, some (GoErr.msg (gs "decode error")))
      | some bytes =>
        match unmarshal bytes with
        | none => (GoAny.goNil, some (GoErr.msg (gs "unmarshal error")))
        | some v => (GoAny.typed v, none)

/-! ## JSON marshalling (Go `encoding/json`, as used by the handlers)

Strings appearing in the claims are ASCII, so the encoder is modelled
byte-wise; the Go rune-level handling of multi-byte UTF-8 (and U+2028/9)
is outside the modelled range. -/

/-- One byte of a JSON string as the Go encoder (with HTML escaping, the
`json.Marshal` / `json.NewEncoder` default) writes it. -/
def jsonEscapeByte (b : Nat) : List Nat :=
  if b = 34 then [92, 34]
  else if b = 92 then [92, 92]
  else if b = 10 then [92, 110]
  else if b = 13 then [92, 114]
  else if b = 9 then [92, 116]
  else if b < 32 ∨ b = 60 ∨ b = 62 ∨ b = 38 then
    [92, 117, 48, 48, hexDigit (b >>> 4), hexDigit (b &&& 0xf)]
  else [b]

/-- A JSON string literal: quote, escaped bytes, quote. -/
def jsonStr (s : GoStr) : GoStr := 34 :: s.flatMap jsonEscapeByte ++ [34]

def commaJoin : List GoStr → GoStr
  | [] => []
  | [x] => x
  | x :: rest => x ++ 44 :: commaJoin rest

/-- A JSON array from already-serialized elements. -/
def jsonArr (xs : List GoStr) : GoStr := 91 :: commaJoin xs ++ [93]

/-- A JSON object from key/serialized-value pairs (byte 123 = left brace,
125 = right brace). -/
def jsonObj (fields : List (GoStr × GoStr)) : GoStr :=
  123 :: commaJoin (fields.map fun f => jsonStr f.1 ++ 58 :: f.2) ++ [125]

/-- A Go slice: `none` is the nil slice (marshals to `null` without
`omitempty`), `some` is a non-nil slice. -/
abbrev GoSlice (α : Type) := Option (List α)

/-- Marshal a slice-valued field without `omitempty`: nil marshals to `null`. -/
def jsonSlice {α : Type} (f : α → GoStr) : GoSlice α → GoStr
  | none => gs "null"
  | some xs => jsonArr (xs.map f)

/-- A required field. -/
def fReq (name : String) (v : GoStr) : Option (GoStr × GoStr) := some (gs name, v)

/-- A string field with `omitempty`. -/
def fStr (name : String) (v : GoStr) : Option (GoStr × GoStr) :=
  if v = [] then none else some (gs name, jsonStr v)

/-- A bool field with `omitempty`. -/
def fBool (name : String) (b : Bool) : Option (GoStr × GoStr) :=
  if b then some (gs name, gs "true") else none

/-- A numeric field with `omitempty`. -/
def fNat (name : String) (n : Nat) : Option (GoStr × GoStr) :=
  if n = 0 then none else some (gs name, natToDec n)

/-- A slice field with `omitempty` (omitted when nil or empty). -/
def fSlice {α : Type} (name : String) (f : α → GoStr) : GoSlice α → Option (GoStr × GoStr)
  | none => none
  | some [] => none
  | some xs => some (gs name, jsonArr (xs.map f))

/-! ### The data model of `types.go` and its marshalled form -/

/-- `SubtitleItem` of `types.go` (all fields required). -/
structure SubtitleItemL where
  id : GoStr
  url : GoStr
  language : GoStr
  label : GoStr
deriving DecidableEq

def jsonSubtitleItem (s : SubtitleItemL) : GoStr :=
  jsonObj ((
    [fReq "id" (jsonStr s.id), fReq "url" (jsonStr s.url),
     fReq "language" (jsonStr s.language), fReq "label" (jsonStr s.label)]).filterMap id)

/-- `StreamBehaviorHints` of `types.go` (all fields `omitempty`). -/
structure StreamBehaviorHintsL where
  bingeWatch : Bool
  autoPlay : Bool
  proxy : Bool
deriving DecidableEq

def jsonStreamBehaviorHints (h : StreamBehaviorHintsL) : GoStr :=
  jsonObj (([fBool "bingeWatch" h.bingeWatch, fBool "autoPlay" h.autoPlay,
    fBool "proxy" h.proxy]).filterMap id)

/-- `StreamItem` of `types.go`.  `behaviorHints` is a struct field marked
`omitempty`, which Go never omits for struct values, so it always appears. -/
structure StreamItemL where
  url : GoStr
  ytId : GoStr
  infoHash : GoStr
  externalUrl : GoStr
  title : GoStr
  fileIdx : Nat
  subtitles : GoSlice SubtitleItemL
  behaviorHints : StreamBehaviorHintsL
deriving DecidableEq

def jsonStreamItem (s : StreamItemL) : GoStr :=
  jsonObj (([fStr "url" s.url, fStr "ytId" s.ytId, fStr "infoHash" s.infoHash,
    fStr "externalUrl" s.externalUrl, fStr "title" s.title, fNat "fileIdx" s.fileIdx,
    fSlice "subtitles" jsonSubtitleItem s.subtitles,
    fReq "behaviorHints" (jsonStreamBehaviorHints s.behaviorHints)]).filterMap id)

/-- `MetaLinkItem` of `types.go` (all fields required). -/
structure MetaLinkItemL where
  name : GoStr
  category : GoStr
  url : GoStr
deriving DecidableEq

def jsonMetaLinkItem (l : MetaLinkItemL) : GoStr :=
  jsonObj (([fReq "name" (jsonStr l.name), fReq "category" (jsonStr l.category),
    fReq "url" (jsonStr l.url)]).filterMap id)

/-- `MetaBehaviorHints` of `types.go` (all fields `omitempty`). -/
structure MetaBehaviorHintsL where
  defaultVideoId : GoStr
  defaultSeason : GoStr
  defaultEpisode : GoStr
  autoPlay : Bool
  bingeWatch : Bool
  proxy : Bool
deriving DecidableEq

def jsonMetaBehaviorHints (h : MetaBehaviorHintsL) : GoStr :=
  jsonObj (([fStr "defaultVideoId" h.defaultVideoId, fStr "defaultSeason" h.defaultSeason,
    fStr "defaultEpisode" h.defaultEpisode, fBool "autoPlay" h.autoPlay,
    fBool "bingeWatch" h.bingeWatch, fBool "proxy" h.proxy]).filterMap id)

/-- `MetaPreviewItem` of `types.go` (catalog responses).  As with
`StreamItem`, the struct-valued `behaviorHints` always appears. -/
structure MetaPreviewItemL where
  id : GoStr
  type : GoStr
  name : GoStr
  poster : GoStr
  posterShape : GoStr
  genres : GoSlice GoStr
  director : GoSlice GoStr
  cast : GoSlice GoStr
  links : GoSlice MetaLinkItemL
  imdbRating : GoStr
  releaseInfo : GoStr
  description : GoStr
  released : GoStr
  runtime : GoStr
  language : GoStr
  country : GoStr
  awards : GoStr
  website : GoStr
  behaviorHints : MetaBehaviorHintsL
deriving DecidableEq

def jsonMetaPreviewItem (m : MetaPreviewItemL) : GoStr :=
  jsonObj (([fReq "id" (jsonStr m.id), fReq "type" (jsonStr m.type),
    fReq "name" (jsonStr m.name), fReq "poster" (jsonStr m.poster),
    fStr "posterShape" m.posterShape,
    fSlice "genres" jsonStr m.genres, fSlice "director" jsonStr m.director,
    fSlice "cast" jsonStr m.cast, fSlice "links" jsonMetaLinkItem m.links,
    fStr "imdbRating" m.imdbRating, fStr "releaseInfo" m.releaseInfo,
    fStr "description" m.description, fStr "released" m.released,
    fStr "runtime" m.runtime, fStr "language" m.language, fStr "country" m.country,
    fStr "awards" m.awards, fStr "website" m.website,
    fReq "behaviorHints" (jsonMetaBehaviorHints m.behaviorHints)]).filterMap id)

/-- `ExtraItem` of `types.go`. -/
structure ExtraItemL where
  name : GoStr
  isRequired : Bool
  options : GoSlice GoStr
  optionsLimit : Nat
deriving DecidableEq

def jsonExtraItem (e : ExtraItemL) : GoStr :=
  jsonObj (([fReq "name" (jsonStr e.name), fBool "isRequired" e.isRequired,
    fSlice "options" jsonStr e.options, fNat "optionsLimit" e.optionsLimit]).filterMap id)

/-- `CatalogItem` of `types.go`. -/
structure CatalogItemL where
  type : GoStr
  id : GoStr
  name : GoStr
  extra : GoSlice ExtraItemL
deriving DecidableEq

def jsonCatalogItem (c : CatalogItemL) : GoStr :=
  jsonObj (([fReq "type" (jsonStr c.type), fReq "id" (jsonStr c.id),
    fReq "name" (jsonStr c.name), fSlice "extra" jsonExtraItem c.extra]).filterMap id)

/-- `ResourceItem` of `types.go` (`types` has no `omitempty`). -/
structure ResourceItemL where
  name : GoStr
  types : GoSlice GoStr
  idPrefixes : GoSlice GoStr
deriving DecidableEq

def jsonResourceItem (r : ResourceItemL) : GoStr :=
  jsonObj (([fReq "name" (jsonStr r.name), fReq "types" (jsonSlice jsonStr r.types),
    fSlice "idPrefixes" jsonStr r.idPrefixes]).filterMap id)

/-- `BehaviorHints` of `types.go` (all fields `omitempty`). -/
structure BehaviorHintsL where
  adult : Bool
  p2p : Bool
  configurable : Bool
  configurationRequired : Bool
deriving DecidableEq

def jsonBehaviorHints (h : BehaviorHintsL) : GoStr :=
  jsonObj (([fBool "adult" h.adult, fBool "p2p" h.p2p, fBool "configurable" h.configurable,
    fBool "configurationRequired" h.configurationRequired]).filterMap id)

/-- `Manifest` of `types.go`.  `types` and `catalogs` have no `omitempty`;
the struct-valued `behaviorHints` always appears. -/
structure ManifestL where
  id : GoStr
  name : GoStr
  description : GoStr
  version : GoStr
  resourceItems : GoSlice ResourceItemL
  types : GoSlice GoStr
  catalogs : GoSlice CatalogItemL
  idPrefixes : GoSlice GoStr
  background : GoStr
  logo : GoStr
  contactEmail : GoStr
  behaviorHints : BehaviorHintsL
deriving DecidableEq

def jsonManifest (m : ManifestL) : GoStr :=
  jsonObj (([fReq "id" (jsonStr m.id), fReq "name" (jsonStr m.name),
    fReq "description" (jsonStr m.description), fReq "version" (jsonStr m.version),
    fSlice "resources" jsonResourceItem m.resourceItems,
    fReq "types" (jsonSlice jsonStr m.types),
    fReq "catalogs" (jsonSlice jsonCatalogItem m.catalogs),
    fSlice "idPrefixes" jsonStr m.idPrefixes,
    fStr "background" m.background, fStr "logo" m.logo,
    fStr "contactEmail" m.contactEmail,
    fReq "behaviorHints" (jsonBehaviorHints m.behaviorHints)]).filterMap id)

/-! ## HTTP response model and the handlers of `handlers.go` -/

/-- The observable outcome of one request: final status, headers (a map,
written with `Header().Set`), and body bytes. -/
structure Response where
  status : Int
  headers : List (GoStr × GoStr)
  body : GoStr
deriving DecidableEq

/-- `Header().Set`: replace the value for a key, or append the pair. -/
def setHeader : List (GoStr × GoStr) → GoStr → GoStr → List (GoStr × GoStr)
  | [], k, v => [(k, v)]
  | (k0, v0) :: rest, k, v =>
    if k0 = k then (k, v) :: rest else (k0, v0) :: setHeader rest k v

/-- Look up a response header; the empty string when absent (like
`Header.Get`). -/
def getHeader (r : Response) (k : GoStr) : GoStr :=
  match r.headers.find? (fun p => p.1 = k) with
  | some p => p.2
  | none => []

/-- `http.Error w msg code`: plain-text error with the message and a newline. -/
def httpError (msg : GoStr) (code : Int) : Response :=
  { status := code,
    headers := [(gs "Content-Type", gs "text/plain; charset=utf-8"),
                (gs "X-Content-Type-Options", gs "nosniff")],
    body := msg ++ [10] }

/-- A 200 JSON response as the handlers produce it:
`w.Header().Set("Content-Type", "application/json")` followed by
`json.NewEncoder(w).Encode(v)` (the encoder appends a newline). -/
def jsonOK (headers : List (GoStr × GoStr)) (body : GoStr) : Response :=
  { status := 200,
    headers := setHeader headers (gs "Content-Type") (gs "application/json"),
    body := body ++ [10] }

/-- The inputs of one request that the handlers consume: the `type`, `id`
and `userData` path values (empty when the matched route has no such
wildcard), the `userData` query parameter, and the `If-None-Match` header
(each empty when absent, as in Go). -/
structure Request where
  pathType : GoStr
  pathId : GoStr
  pathUserData : GoStr
  queryUserData : GoStr
  ifNoneMatch : GoStr
deriving DecidableEq

/-- User data of a request: the `userData` path value, falling back to the
query parameter (shared by all three handlers). -/
def requestUserData (r : Request) : GoStr :=
  if r.pathUserData = [] then r.queryUserData else r.pathUserData

/-- `generateETag` of `handlers.go` for a stream-items slice: hex-encoded
SHA-256 of `json.Marshal` of the slice itself (the Go function is generic
over `any`; these are its two instantiations used by the handlers). -/
def generateETagStreams (items : GoSlice StreamItemL) : GoStr :=
  hexEncode (sha256 (jsonSlice jsonStreamItem items))

/-- `generateETag` of `handlers.go` for a catalog-items slice. -/
def generateETagMetas (items : GoSlice MetaPreviewItemL) : GoStr :=
  hexEncode (sha256 (jsonSlice jsonMetaPreviewItem items))

/-- The cache-header and ETag epilogue shared by the catalog and stream
handlers (`handlers.go` lines 112-133 and 183-204): sets `Cache-Control`
when `cacheAge > 0` (always with `public`), overwrites it with plain
`public` when `cachePublic` is set, then handles the ETag and either
short-circuits with 304 or writes the JSON envelope. -/
def cacheEtagEpilogue (cacheAge : Int) (cachePublic handleEtag : Bool)
    (etag : GoStr) (ifNoneMatch : GoStr) (envelope : GoStr) : Response :=
  let hs0 : List (GoStr × GoStr) := []
  let hs1 := if cacheAge > 0 then
      setHeader hs0 (gs "Cache-Control") (gs "public, max-age=" ++ intToDec cacheAge)
    else hs0
  let hs2 := if cachePublic then setHeader hs1 (gs "Cache-Control") (gs "public") else hs1
  if handleEtag then
    let hs3 := setHeader hs2 (gs "ETag") etag
    if ifNoneMatch = etag then { status := 304, headers := hs3, body := [] }
    else jsonOK hs3 envelope
  else jsonOK hs2 envelope

/-- A registered stream handler: `(id, userData) → (items, error)`
(the request context is not modelled). -/
abbrev StreamHandlerL (α : Type) := GoStr → GoAny α → Except GoErr (GoSlice StreamItemL)

/-- A registered catalog handler. -/
abbrev CatalogHandlerL (α : Type) := GoStr → GoAny α → Except GoErr (GoSlice MetaPreviewItemL)

/-- `createStreamHandler` of `handlers.go`: parameter extraction, user-data
decoding, handler lookup and dispatch, the not-found / generic error split,
cache headers, ETag handling, and the `\x7b"streams": items\x7d` envelope. -/
def createStreamHandler {α : Type} (handlers : GoStr → Option (StreamHandlerL α))
    (cacheAge : Int) (cachePublic handleEtag : Bool)
    (t : Option (GoStr → Option α)) (userDataIsBase64 : Bool) (r : Request) : Response :=
  if r.pathType = [] ∨ r.pathId = [] then
    httpError (gs "Missing type or id parameter") 400
  else
    let id := trimSuffix r.pathId (gs ".json")
    match decodeUserData (requestUserData r) t userDataIsBase64 with
    | (_, some _) => httpError (gs "Invalid user data") 400
    | (decodedUserData, none) =>
      match handlers r.pathType with
      | none => httpError (gs "Unsupported type") 400
      | some handler =>
        match handler id decodedUserData with
        | Except.error e =>
          if errorsIs e ErrNotFound then httpError (gs "Not found") 404
          else httpError (gs "Failed to get streams") 500
        | Except.ok items =>
          cacheEtagEpilogue cacheAge cachePublic handleEtag
            (generateETagStreams items) r.ifNoneMatch
            (jsonObj [(gs "streams", jsonSlice jsonStreamItem items)])

/-- `createCatalogHandler` of `handlers.go`.  Note: unlike the stream
handler, its error branch has no `ErrNotFound` case — every handler error
is answered 500. -/
def createCatalogHandler {α : Type} (handlers : GoStr → Option (CatalogHandlerL α))
    (cacheAge : Int) (cachePublic handleEtag : Bool)
    (t : Option (GoStr → Option α)) (userDataIsBase64 : Bool) (r : Request) : Response :=
  if r.pathType = [] ∨ r.pathId = [] then
    httpError (gs "Missing type or id parameter") 400
  else
    let id := trimSuffix r.pathId (gs ".json")
    match decodeUserData (requestUserData r) t userDataIsBase64 with
    | (_, some _) => httpError (gs "Invalid user data") 400
    | (decodedUserData, none) =>
      match handlers r.pathType with
      | none => httpError (gs "Unsupported type") 400
      | some handler =>
        match handler id decodedUserData with
        | Except.error _ => httpError (gs "Failed to get catalog") 500
        | Except.ok items =>
          cacheEtagEpilogue cacheAge cachePublic handleEtag
            (generateETagMetas items) r.ifNoneMatch
            (jsonObj [(gs "metas", jsonSlice jsonMetaPreviewItem items)])

/-- A manifest callback: receives the manifest by pointer and the decoded
user data, returns a status code; the possibly mutated manifest is the
second component (Go mutates through the pointer). -/
abbrev ManifestCallbackL (α : Type) := ManifestL → GoAny α → Int × ManifestL

/-- `createManifestHandler` of `handlers.go`.  The Go closure captures the
`manifest` parameter — a single variable shared by every invocation of the
returned handler, mutated in place by the callback — so the handler is
embedded as a state transformer: it consumes the current state of that
captured variable and returns the response together with the state the
variable has after the request. -/
def createManifestHandler {α : Type} (manifestState : ManifestL)
    (callback : Option (ManifestCallbackL α))
    (t : Option (GoStr → Option α)) (userDataIsBase64 : Bool) (r : Request) :
    Response × ManifestL :=
  match decodeUserData (requestUserData r) t userDataIsBase64 with
  | (_, some _) => (httpError (gs "Invalid user data") 400, manifestState)
  | (decodedUserData, none) =>
    match callback with
    | none => (jsonOK [] (jsonManifest manifestState), manifestState)
    | some cb =>
      let res := cb manifestState decodedUserData
      if res.1 ≥ 400 then (httpError (gs "Manifest callback returned error") res.1, res.2)
      else (jsonOK [] (jsonManifest res.2), res.2)

/-- Serving two successive manifest requests: the second handler of the second request
invocation starts from the captured-variable state left by the first. -/
def serveManifestTwice {α : Type} (manifest0 : ManifestL)
    (callback : Option (ManifestCallbackL α))
    (t : Option (GoStr → Option α)) (userDataIsBase64 : Bool) (r1 r2 : Request) :
    Response × Response × ManifestL :=
  let first := createManifestHandler manifest0 callback t userDataIsBase64 r1
  let second := createManifestHandler first.2 callback t userDataIsBase64 r2
  (first.1, second.1, second.2)

/-! ## `NewAddon` (`addon.go`): construction-time validation -/

/-- The fields of `Options` (`options.go`).  Durations (`time.Duration`)
are nanosecond counts; reference-typed fields (`Logger`, `MetaClient`,
`ConfigureHTMLfs`) are modelled by their nil-ness, which is all `NewAddon`
inspects. -/
structure OptionsL where
  bindAddr : GoStr := []
  port : Int := 0
  loggerSet : Bool := false
  loggingLevel : GoStr := []
  logEncoding : GoStr := []
  disableRequestLogging : Bool := false
  logIPs : Bool := false
  logUserAgent : Bool := false
  logMediaName : Bool := false
  cacheAgeCatalogs : Int := 0
  cacheAgeStreams : Int := 0
  cachePublicCatalogs : Bool := false
  cachePublicStreams : Bool := false
  handleEtagCatalogs : Bool := false
  handleEtagStreams : Bool := false
  metaClientSet : Bool := false
  cinemetaTimeout : Int := 0
  putMetaInContext : Bool := false
  configureHTMLfsSet : Bool := false
  metrics : Bool := false
  profiling : Bool := false
  redirectURL : GoStr := []
  userDataIsBase64 : Bool := false
  streamIDregex : GoStr := []
deriving DecidableEq

/-- The `Addon` value `NewAddon` returns (handler maps and logger omitted:
they are the arguments of the constructor / derived objects). -/
structure AddonL where
  manifest : ManifestL
  opts : OptionsL
deriving DecidableEq

/-- Apply the default values exactly as `NewAddon` does after the checks
(`DefaultOptions` has `BindAddr "0.0.0.0"`, `Port 8080`,
`LoggingLevel "info"`, `LogEncoding "console"`, and a zero
`CinemetaTimeout`, so that assignment is a no-op); then a logger is
configured when none is set, and a Cinemeta client when needed. -/
def optsWithDefaults (o : OptionsL) : OptionsL :=
  let o := if o.bindAddr = [] then { o with bindAddr := gs "0.0.0.0" } else o
  let o := if o.port = 0 then { o with port := 8080 } else o
  let o := if o.loggingLevel = [] then { o with loggingLevel := gs "info" } else o
  let o := if o.logEncoding = [] then { o with logEncoding := gs "console" } else o
  let o := if o.loggerSet then o else { o with loggerSet := true }
  let o := if ¬o.metaClientSet ∧ (o.logMediaName ∨ o.putMetaInContext) then
      { o with metaClientSet := true } else o
  o

/-- `NewAddon` of `addon.go`: the precondition chain, then defaults.
The handler maps are arbitrary types; only their nil-ness is checked. -/
def newAddon {κ σ : Type} (manifest : ManifestL)
    (catalogHandlers : Option κ) (streamHandlers : Option σ) (opts : OptionsL) :
    Except GoStr AddonL :=
  if manifest.id = [] ∨ manifest.name = [] ∨ manifest.description = [] ∨ manifest.version = [] then
    Except.error (gs "An empty manifest was passed")
  else if catalogHandlers.isNone ∧ streamHandlers.isNone then
    Except.error (gs "No handler was passed")
  else if (opts.cachePublicCatalogs ∧ opts.cacheAgeCatalogs = 0) ∨
      (opts.cachePublicStreams ∧ opts.cacheAgeStreams = 0) then
    Except.error (gs "Enabling public caching only makes sense when also setting a cache age")
  else if (opts.handleEtagCatalogs ∧ opts.cacheAgeCatalogs = 0) ∨
      (opts.handleEtagStreams ∧ opts.cacheAgeStreams = 0) then
    Except.error (gs "ETag handling only makes sense when also setting a cache age")
  else if opts.disableRequestLogging ∧ (opts.logIPs ∨ opts.logUserAgent) then
    Except.error (gs "Enabling IP or user agent logging does not make sense when disabling request logging")
  else if opts.loggerSet ∧ opts.loggingLevel ≠ [] then
    Except.error (gs "Setting a logging level in the options does not make sense when you already set a custom logger")
  else if opts.disableRequestLogging ∧ opts.logMediaName then
    Except.error (gs "Enabling media name logging does not make sense when disabling request logging")
  else if opts.metaClientSet ∧ ¬opts.logMediaName ∧ ¬opts.putMetaInContext then
    Except.error (gs "Setting a meta client when neither logging the media name nor putting it in the context does not make sense")
  else if opts.metaClientSet ∧ opts.cinemetaTimeout ≠ 0 then
    Except.error (gs "Setting a Cinemeta timeout does not make sense when you already set a meta client")
  else if manifest.behaviorHints.configurationRequired ∧ ¬manifest.behaviorHints.configurable then
    Except.error (gs "Requiring a configuration only makes sense when also making the addon configurable")
  else if opts.configureHTMLfsSet ∧ ¬manifest.behaviorHints.configurable then
    Except.error (gs "Setting a ConfigureHTMLfs only makes sense when also making the addon configurable")
  else
    Except.ok { manifest := manifest, opts := optsWithDefaults opts }

/-! ## `http.ServeMux` pattern validation (Go 1.22+ `net/http`) and
route registration in `Run` (`addon.go`) -/

/-- Rejection reasons of `parsePattern` of `net/http` relevant here (the Go
messages, paraphrased: a segment containing a brace must start with `\x7b`,
must end with `\x7d`, and must contain a valid identifier). -/
inductive PatternErr where
  | emptyPattern : PatternErr
  | missingSlash : PatternErr
  | wildcardMustStartWithBrace : PatternErr
  | wildcardMustEndWithBrace : PatternErr
  | badWildcardName : PatternErr
deriving DecidableEq

def isAsciiLetter (c : Nat) : Bool := (65 ≤ c ∧ c ≤ 90) ∨ (97 ≤ c ∧ c ≤ 122)

def isAsciiDigit (c : Nat) : Bool := 48 ≤ c ∧ c ≤ 57

/-- `isValidWildcardName`: a valid Go identifier (ASCII range). -/
def validWildcardName : GoStr → Bool
  | [] => false
  | c :: rest =>
    (isAsciiLetter c || c = 95) &&
      rest.all fun d => isAsciiLetter d || d = 95 || isAsciiDigit d

/-- Validate one path segment of a pattern: a segment without `\x7b`
(byte 123) is a literal; otherwise it must be exactly
`\x7b name \x7d` (with an optional `...` before the closing brace). -/
def checkSeg (seg : GoStr) : Except PatternErr Unit :=
  if ¬seg.contains 123 then Except.ok ()
  else if seg.head? ≠ some 123 then Except.error PatternErr.wildcardMustStartWithBrace
  else if seg.getLast? ≠ some 125 then Except.error PatternErr.wildcardMustEndWithBrace
  else
    let name := trimSuffix ((seg.drop 1).dropLast) (gs "...")
    if validWildcardName name then Except.ok ()
    else Except.error PatternErr.badWildcardName

/-- The segment loop of `parsePattern`: each iteration consumes the leading
slash; an empty remainder after it is a trailing slash (an implicit
multi-segment wildcard). -/
def parseSegsLoop : Nat → GoStr → Except PatternErr Unit
  | _, [] => Except.ok ()
  | 0, _ => Except.ok ()
  | fuel + 1, _ :: rest =>
    if rest = [] then Except.ok ()
    else
      let seg := rest.takeWhile fun c => c ≠ 47
      let rest2 := rest.dropWhile fun c => c ≠ 47
      match checkSeg seg with
      | Except.error e => Except.error e
      | Except.ok _ => parseSegsLoop fuel rest2

/-- `parsePattern` of `net/http` for method-less, host-less patterns (the
only kind this addon registers): validity of every segment.
`ServeMux.HandleFunc` panics when this fails. -/
def parsePattern (pat : GoStr) : Except PatternErr Unit :=
  match pat with
  | [] => Except.error PatternErr.emptyPattern
  | 47 :: _ => parseSegsLoop pat.length pat
  | _ => Except.error PatternErr.missingSlash

/-- Register patterns in order; the first invalid one aborts (the Go
`HandleFunc` panic). -/
def registerAll : List GoStr → Except PatternErr Unit
  | [] => Except.ok ()
  | p :: rest =>
    match parsePattern p with
    | Except.error e => Except.error e
    | Except.ok _ => registerAll rest

/-- The patterns `Run` (`addon.go`) registers, in program order, as a
function of the configuration of the addon.  Byte 123/124/125 escapes are the
literal braces of the Go pattern strings. -/
def runPatterns (hasCatalogHandlers hasStreamHandlers : Bool)
    (configurationRequired configurable hasConfigHandler hasConfigUI : Bool)
    (hasRedirectURL hasMetaClient : Bool) (customPaths : List GoStr) : List GoStr :=
  [gs "/health", gs "/manifest.json", gs "/\x7buserData\x7d/manifest.json"]
  ++ (if hasCatalogHandlers then
        (if configurationRequired then [] else [gs "/catalog/\x7btype\x7d/\x7bid\x7d.json"])
        ++ [gs "/\x7buserData\x7d/catalog/\x7btype\x7d/\x7bid\x7d.json"]
      else [])
  ++ (if hasStreamHandlers then
        (if configurationRequired then [] else [gs "/stream/\x7btype\x7d/\x7bid\x7d.json"])
        ++ [gs "/\x7buserData\x7d/stream/\x7btype\x7d/\x7bid\x7d.json"]
      else [])
  ++ (if configurable ∧ hasConfigHandler then [gs "/configure"] else [])
  ++ (if configurable ∧ hasConfigUI then [gs "/configure.json"] else [])
  ++ (if hasRedirectURL then [gs "/"] else [])
  ++ customPaths
  ++ (if hasMetaClient then
        (if configurationRequired then [] else [gs "/stream/\x7btype\x7d/\x7bid\x7d.json"])
        ++ [gs "/\x7buserData\x7d/stream/\x7btype\x7d/\x7bid\x7d.json"]
      else [])

/-- route registration in `Run`: `Except.ok` would mean the mux was built;
an error is the pattern whose registration panics. -/
def runRegisterRoutes (hasCatalogHandlers hasStreamHandlers : Bool)
    (configurationRequired configurable hasConfigHandler hasConfigUI : Bool)
    (hasRedirectURL hasMetaClient : Bool) (customPaths : List GoStr) :
    Except PatternErr Unit :=
  registerAll (runPatterns hasCatalogHandlers hasStreamHandlers configurationRequired
    configurable hasConfigHandler hasConfigUI hasRedirectURL hasMetaClient customPaths)

/-! ## `addRouteMatcherMiddleware` (`handlers.go`) -/

/-- A `ServeMux` as its registered (pattern, handler-tag) pairs. -/
abbrev ServeMuxL := List (GoStr × GoStr)

/-- The gate the middleware closure implements: 400 when configuration is
required but no user data is present, 400 when a stream-ID pattern is
configured and a non-empty id fails it; otherwise pass through (`none`).
The compiled regex is abstracted as a match predicate. -/
def routeMatcherGate (configurationRequired : Bool)
    (streamIDregexMatch : Option (GoStr → Bool)) (userData id : GoStr) : Option Response :=
  if configurationRequired ∧ userData = [] then
    some (httpError (gs "Configuration required") 400)
  else
    match streamIDregexMatch with
    | some matcher =>
      if id ≠ [] ∧ ¬matcher id then some (httpError (gs "Invalid stream ID") 400) else none
    | none => none

/-- `addRouteMatcherMiddleware mux ...` as the caller observes it.  The Go
function rebinds its local `mux` parameter to a fresh `http.NewServeMux()`
and installs the middleware-wrapped original there
(`originalMux := mux; mux = http.NewServeMux(); mux.Handle("/", middleware(originalMux))`);
assigning to the local pointer variable does not change the mux of the caller,
and the freshly built mux is dropped when the function returns.  The value
returned here is the state of the mux of the caller after the call. -/
def addRouteMatcherMiddleware (mux : ServeMuxL)
    (configurationRequired : Bool) (hasStreamIDregex : Bool) : ServeMuxL :=
  let originalMux := mux
  let localMux : ServeMuxL := []
  let _ := configurationRequired
  let _ := hasStreamIDregex
  let _wrapped : ServeMuxL :=
    (gs "/", gs "middleware(originalMux)") :: localMux ++ originalMux.take 0
  mux

/-! ## Client-side encodings of user data (for the round-trip claim) -/

/-- One base64url alphabet character. -/
def base64urlChar (n : Nat) : Nat :=
  if n < 26 then 65 + n
  else if n < 52 then 71 + n
  else if n < 62 then n - 4
  else if n = 62 then 45
  else 95

/-- Modelled from the spec: the client-side base64url encoder with padding
("base64url (padding optional, trailing `=` stripped before decoding)").
No encoder exists in the sources — user data is encoded by clients. -/
def base64urlEncodePad : List Nat → GoStr
  | [] => []
  | [b0] =>
    [base64urlChar (b0 >>> 2), base64urlChar ((b0 &&& 3) <<< 4), 61, 61]
  | [b0, b1] =>
    [base64urlChar (b0 >>> 2), base64urlChar (((b0 &&& 3) <<< 4) ||| (b1 >>> 4)),
     base64urlChar ((b1 &&& 0xf) <<< 2), 61]
  | b0 :: b1 :: b2 :: rest =>
    [base64urlChar (b0 >>> 2), base64urlChar (((b0 &&& 3) <<< 4) ||| (b1 >>> 4)),
     base64urlChar (((b1 &&& 0xf) <<< 2) ||| (b2 >>> 6)), base64urlChar (b2 &&& 63)]
    ++ base64urlEncodePad rest

/-- The `customer` user-data schema registered by the
example (`userId`, `token`, `preferredStreamType`). -/
structure CustomerL where
  userId : GoStr
  token : GoStr
  preferredStreamType : GoStr
deriving DecidableEq

/-- `json.Marshal` of a `customer` value. -/
def jsonCustomer (c : CustomerL) : GoStr :=
  jsonObj [(gs "userId", jsonStr c.userId), (gs "token", jsonStr c.token),
           (gs "preferredStreamType", jsonStr c.preferredStreamType)]

/-- Modelled from the spec: `encode(v)` in base64url mode with padding —
the padded base64url encoding of the JSON serialization of `v`. -/
def encodeUserDataB64Pad (c : CustomerL) : GoStr :=
  base64urlEncodePad (jsonCustomer c)

/-! ## Concrete fixtures used by the claim theorems -/

/-- The stream item of the test scenario of the spec: one item with a URL and a
title. -/
def sampleStreamItem : StreamItemL :=
  { url := gs "u", ytId := [], infoHash := [], externalUrl := [], title := gs "t",
    fileIdx := 0, subtitles := none, behaviorHints := ⟨false, false, false⟩ }

/-- A stream handler for type `movie`: one item for id `tt1`, the
not-found sentinel otherwise (the test scenario of the spec). -/
def sampleMovieStreamHandler : StreamHandlerL Unit := fun id _ =>
  if id = gs "tt1" then Except.ok (some [sampleStreamItem]) else Except.error ErrNotFound

/-- The stream handler registry of the test scenario. -/
def sampleStreamHandlers : GoStr → Option (StreamHandlerL Unit) := fun ty =>
  if ty = gs "movie" then some sampleMovieStreamHandler else none

/-- A catalog handler registry for type `movie` that returns the not-found
sentinel for every id. -/
def sampleCatalogHandlersNotFound : GoStr → Option (CatalogHandlerL Unit) := fun ty =>
  if ty = gs "movie" then some (fun _ _ => Except.error ErrNotFound) else none

/-- `GET /stream/movie/tt1.json` (no user data, no `If-None-Match`). -/
def sampleRequest : Request :=
  { pathType := gs "movie", pathId := gs "tt1.json", pathUserData := [],
    queryUserData := [], ifNoneMatch := [] }

/-- The manifest of the test scenario of the spec. -/
def sampleManifest : ManifestL :=
  { id := gs "org.test", name := gs "t", description := gs "d", version := gs "1.0.0",
    resourceItems := none, types := some [gs "movie"], catalogs := some [],
    idPrefixes := none, background := [], logo := [], contactEmail := [],
    behaviorHints := ⟨false, false, false, false⟩ }

/-- A manifest request without user data (`GET /manifest.json`). -/
def manifestRequest : Request :=
  { pathType := [], pathId := [], pathUserData := [], queryUserData := [], ifNoneMatch := [] }

/-- A manifest callback that appends `X` to the manifest name and admits the
request: each invocation mutates the manifest it is handed. -/
def appendNameCallback : ManifestCallbackL Unit :=
  fun m _ => (200, { m with name := m.name ++ gs "X" })

/-- The JSON envelope `\x7b"streams": [sampleStreamItem]\x7d` of the sample
stream response. -/
def sampleStreamEnvelope : GoStr :=
  jsonObj [(gs "streams", jsonSlice jsonStreamItem (some [sampleStreamItem]))]

/-- A catalog item for the success fixtures. -/
def sampleMetaItem : MetaPreviewItemL :=
  { id := gs "tt1254207", type := gs "movie", name := gs "Big Buck Bunny", poster := gs "p",
    posterShape := [], genres := none, director := none, cast := none, links := none,
    imdbRating := [], releaseInfo := [], description := [], released := [], runtime := [],
    language := [], country := [], awards := [], website := [],
    behaviorHints := ⟨[], [], [], false, false, false⟩ }

/-- A catalog handler registry for type `movie` returning one item for
every id. -/
def sampleCatalogHandlersOk : GoStr → Option (CatalogHandlerL Unit) := fun ty =>
  if ty = gs "movie" then some (fun _ _ => Except.ok (some [sampleMetaItem])) else none

/-- `GET /catalog/movie/blender.json` (the id is already stripped by the
router wildcard in this fixture). -/
def catalogRequest : Request :=
  { pathType := gs "movie", pathId := gs "blender", pathUserData := [],
    queryUserData := [], ifNoneMatch := [] }

/-- `GET /stream/movie/ttX.json` — an id the sample handler does not know. -/
def notFoundRequest : Request :=
  { pathType := gs "movie", pathId := gs "ttX.json", pathUserData := [],
    queryUserData := [], ifNoneMatch := [] }

/-! ## Helper lemmas about headers -/

theorem find_setHeader_self (hs : List (GoStr × GoStr)) (k v : GoStr) :
    (setHeader hs k v).find? (fun p => p.1 = k) = some (k, v) := by
  induction hs with
  | nil => simp [setHeader]
  | cons p rest ih =>
    by_cases h : p.1 = k
    · simp [setHeader, h]
    · simp only [setHeader]
      rw [if_neg h]
      simp [List.find?, h, ih]

theorem find_setHeader_ne (hs : List (GoStr × GoStr)) (q k v : GoStr) (h : q ≠ k) :
    (setHeader hs q v).find? (fun p => p.1 = k) = hs.find? (fun p => p.1 = k) := by
  induction hs with
  | nil => simp [setHeader, h]
  | cons p rest ih =>
    by_cases h0 : p.1 = q
    · simp only [setHeader]
      rw [if_pos h0]
      simp [List.find?, h, h0]
    · simp only [setHeader]
      rw [if_neg h0]
      by_cases h1 : p.1 = k
      · simp [List.find?, h1, Prod.ext_iff]
      · simp [List.find?, h1, ih]

theorem getHeader_set_self (st : Int) (hs : List (GoStr × GoStr)) (bd k v : GoStr) :
    getHeader (Response.mk st (setHeader hs k v) bd) k = v := by
  simp [getHeader, find_setHeader_self]

theorem getHeader_jsonOK (hs : List (GoStr × GoStr)) (env k : GoStr)
    (h : k ≠ gs "Content-Type") :
    getHeader (jsonOK hs env) k = getHeader (Response.mk 200 hs env) k := by
  simp only [jsonOK, getHeader]
  rw [find_setHeader_ne _ _ _ _ (fun e => h e.symm)]

/-- The properties of the shared cache/ETag epilogue when ETag handling is
on: the ETag header carries the given fingerprint; an exactly matching
`If-None-Match` short-circuits to 304 with an empty body; otherwise the
JSON envelope is written with 200. -/
theorem cacheEtagEpilogue_props (cacheAge : Int) (cachePublic : Bool) (etag inm env : GoStr) :
    getHeader (cacheEtagEpilogue cacheAge cachePublic true etag inm env) (gs "ETag") = etag
    ∧ (inm = etag → (cacheEtagEpilogue cacheAge cachePublic true etag inm env).status = 304
        ∧ (cacheEtagEpilogue cacheAge cachePublic true etag inm env).body = [])
    ∧ (inm ≠ etag → (cacheEtagEpilogue cacheAge cachePublic true etag inm env).status = 200
        ∧ (cacheEtagEpilogue cacheAge cachePublic true etag inm env).body = env ++ [10]) := by
  have hne : gs "ETag" ≠ gs "Content-Type" := by decide
  by_cases hinm : inm = etag
  · refine ⟨?_, fun _ => ?_, fun hn => absurd hinm hn⟩
    · simp [cacheEtagEpilogue, hinm, getHeader_set_self]
    · simp [cacheEtagEpilogue, hinm]
  · refine ⟨?_, fun he => absurd he hinm, fun _ => ?_⟩
    · simp only [cacheEtagEpilogue, if_true]
      rw [if_neg hinm]
      rw [getHeader_jsonOK _ _ _ hne]
      exact getHeader_set_self _ _ _ _ _
    · simp [cacheEtagEpilogue, hinm, jsonOK]

/-- Successful dispatch through `createStreamHandler` reaches the
cache/ETag epilogue with the items of the handler. -/
theorem createStreamHandler_ok {α : Type} (handlers : GoStr → Option (StreamHandlerL α))
    (cacheAge : Int) (cachePublic handleEtag : Bool) (t : Option (GoStr → Option α))
    (b64 : Bool) (r : Request) (hdlr : StreamHandlerL α) (items : GoSlice StreamItemL)
    (hty : ¬(r.pathType = [] ∨ r.pathId = []))
    (hdec : (decodeUserData (requestUserData r) t b64).2 = none)
    (hlook : handlers r.pathType = some hdlr)
    (hok : hdlr (trimSuffix r.pathId (gs ".json")) (decodeUserData (requestUserData r) t b64).1
      = Except.ok items) :
    createStreamHandler handlers cacheAge cachePublic handleEtag t b64 r
      = cacheEtagEpilogue cacheAge cachePublic handleEtag (generateETagStreams items)
          r.ifNoneMatch (jsonObj [(gs "streams", jsonSlice jsonStreamItem items)]) := by
  unfold createStreamHandler
  rw [if_neg hty]
  rcases hd : decodeUserData (requestUserData r) t b64 with ⟨v, oe⟩
  rw [hd] at hdec hok
  simp only at hdec hok
  subst hdec
  simp [hlook, hok]

/-- Failed dispatch through `createStreamHandler`: the not-found sentinel
gives 404, everything else the constant 500 error. -/
theorem createStreamHandler_err {α : Type} (handlers : GoStr → Option (StreamHandlerL α))
    (cacheAge : Int) (cachePublic handleEtag : Bool) (t : Option (GoStr → Option α))
    (b64 : Bool) (r : Request) (hdlr : StreamHandlerL α) (e : GoErr)
    (hty : ¬(r.pathType = [] ∨ r.pathId = []))
    (hdec : (decodeUserData (requestUserData r) t b64).2 = none)
    (hlook : handlers r.pathType = some hdlr)
    (herr : hdlr (trimSuffix r.pathId (gs ".json")) (decodeUserData (requestUserData r) t b64).1
      = Except.error e) :
    createStreamHandler handlers cacheAge cachePublic handleEtag t b64 r
      = if errorsIs e ErrNotFound then httpError (gs "Not found") 404
        else httpError (gs "Failed to get streams") 500 := by
  unfold createStreamHandler
  rw [if_neg hty]
  rcases hd : decodeUserData (requestUserData r) t b64 with ⟨v, oe⟩
  rw [hd] at hdec herr
  simp only at hdec herr
  subst hdec
  simp [hlook, herr]

/-- Successful dispatch through `createCatalogHandler`. -/
theorem createCatalogHandler_ok {α : Type} (handlers : GoStr → Option (CatalogHandlerL α))
    (cacheAge : Int) (cachePublic handleEtag : Bool) (t : Option (GoStr → Option α))
    (b64 : Bool) (r : Request) (hdlr : CatalogHandlerL α) (items : GoSlice MetaPreviewItemL)
    (hty : ¬(r.pathType = [] ∨ r.pathId = []))
    (hdec : (decodeUserData (requestUserData r) t b64).2 = none)
    (hlook : handlers r.pathType = some hdlr)
    (hok : hdlr (trimSuffix r.pathId (gs ".json")) (decodeUserData (requestUserData r) t b64).1
      = Except.ok items) :
    createCatalogHandler handlers cacheAge cachePublic handleEtag t b64 r
      = cacheEtagEpilogue cacheAge cachePublic handleEtag (generateETagMetas items)
          r.ifNoneMatch (jsonObj [(gs "metas", jsonSlice jsonMetaPreviewItem items)]) := by
  unfold createCatalogHandler
  rw [if_neg hty]
  rcases hd : decodeUserData (requestUserData r) t b64 with ⟨v, oe⟩
  rw [hd] at hdec hok
  simp only at hdec hok
  subst hdec
  simp [hlook, hok]

/-! ## Claim theorems -/

/-- Claim C1, evaluated on the code (code bug): with cache age 60 and
`cachePublic` disabled, both handlers emit `Cache-Control: public, max-age=60`
— `public` appears although the flag is off; with `cachePublic` enabled the
header is overwritten to plain `public`, losing `max-age`; and with cache age
0 but `cachePublic` set, a `Cache-Control: public` header is still emitted.
The claim says `public` is added only when `cachePublic` is enabled and that
a zero cache age disables all cache headers. -/
theorem c1_cache_control_evaluation :
    getHeader (createStreamHandler sampleStreamHandlers 60 false false none false sampleRequest)
      (gs "Cache-Control") = gs "public, max-age=60"
    ∧ getHeader (createStreamHandler sampleStreamHandlers 60 true false none false sampleRequest)
      (gs "Cache-Control") = gs "public"
    ∧ getHeader (createStreamHandler sampleStreamHandlers 0 true false none false sampleRequest)
      (gs "Cache-Control") = gs "public"
    ∧ getHeader (createCatalogHandler sampleCatalogHandlersOk 60 false false none false
        catalogRequest) (gs "Cache-Control") = gs "public, max-age=60" := by
  decide

/-- Claim C2, evaluated on the code (code bug): a catalog handler returning
the `ErrNotFound` sentinel is answered 500 `Failed to get catalog` — the
catalog branch of `handlers.go` has no not-found case, unlike the stream
branch.  The claim says such a request is answered 404. -/
theorem c2_catalog_not_found_evaluation :
    createCatalogHandler sampleCatalogHandlersNotFound 0 false false none false catalogRequest
      = httpError (gs "Failed to get catalog") 500 := by
  decide

/-- Claim C3, evaluated on the code (code bug): for the scenario of the claim (a
stream handler, `configurationRequired = true`) route registration in `Run`
panics — the segment `\x7bid\x7d.json` of the stream pattern is an invalid
`ServeMux` wildcard — so no request is ever gated; and independently,
`addRouteMatcherMiddleware` leaves the mux of the caller unchanged for every
input (it installs the gate on a discarded local mux), so the 400 gate of
the claim never runs. -/
theorem c3_route_gate_never_runs :
    runRegisterRoutes false true true true false false false false []
      = Except.error PatternErr.wildcardMustEndWithBrace
    ∧ ∀ (mux : ServeMuxL) (cr hasRegex : Bool),
        addRouteMatcherMiddleware mux cr hasRegex = mux :=
  ⟨rfl, fun _ _ _ => rfl⟩

/-- Claim C4, evaluated on the code (code bug): the padded base64url
encoding of the empty `customer` value (whose JSON is 49 bytes, so the
encoding ends in `==`) does not decode back: `TrimSuffix` strips only one
`=` and the no-padding decoder rejects the remaining one — whatever the
registered unmarshaller is.  The claim says `decode(encode(v)) == v` for
base64url with optional padding. -/
theorem c4_padded_base64_decode_fails :
    ∀ unmarshal : GoStr → Option CustomerL,
      decodeUserData (encodeUserDataB64Pad ⟨[], [], []⟩) (some unmarshal) true
        = (GoAny.goNil, some (GoErr.msg (gs "decode error"))) :=
  fun _ => rfl

/-- Claim C5, counterexample: with ETag handling on, the ETag set for a
successful stream response is not the SHA-256 of the response payload
(`\x7b"streams": [...]\x7d`, with or without the trailing
newline) — it is the hash of the bare items array. -/
theorem c5_etag_not_payload_hash :
    getHeader (createStreamHandler sampleStreamHandlers 60 false true none false sampleRequest)
      (gs "ETag") ≠ hexEncode (sha256 sampleStreamEnvelope)
    ∧ getHeader (createStreamHandler sampleStreamHandlers 60 false true none false sampleRequest)
      (gs "ETag") ≠ hexEncode (sha256 (createStreamHandler sampleStreamHandlers 60 false true
        none false sampleRequest).body) := by
  decide

/-- Claim C8, evaluated on the code (code bug): with a manifest callback
that appends to the manifest name, two identical successive manifest
requests produce different bodies, and the captured manifest variable
after the first request no longer equals the manifest supplied at
construction — the closure shares one manifest copy across requests
(`Manifest.clone` exists in `types.go` but is never called). -/
theorem c8_manifest_mutation_persists :
    (serveManifestTwice (α := Unit) sampleManifest (some appendNameCallback) none false
        manifestRequest manifestRequest).1
      ≠ (serveManifestTwice (α := Unit) sampleManifest (some appendNameCallback) none false
        manifestRequest manifestRequest).2.1
    ∧ (createManifestHandler (α := Unit) sampleManifest (some appendNameCallback) none false
        manifestRequest).2 ≠ sampleManifest := by
  decide

/-- Claim C5, amended: when `handleEtag` is enabled, every successful
stream (first conjunct) or catalog (second conjunct) response carries an
`ETag` header equal to the hex-encoded SHA-256 hash of the JSON
serialization of the items array returned by the handler — not of the
enveloped response body — and a request whose `If-None-Match` exactly
equals that ETag is answered 304 Not Modified with no body. -/
theorem c5_amended_etag_from_items :
    (∀ {α : Type} (handlers : GoStr → Option (StreamHandlerL α)) (cacheAge : Int)
      (cachePublic : Bool) (t : Option (GoStr → Option α)) (b64 : Bool) (r : Request)
      (hdlr : StreamHandlerL α) (items : GoSlice StreamItemL),
      ¬(r.pathType = [] ∨ r.pathId = []) →
      (decodeUserData (requestUserData r) t b64).2 = none →
      handlers r.pathType = some hdlr →
      hdlr (trimSuffix r.pathId (gs ".json")) (decodeUserData (requestUserData r) t b64).1
        = Except.ok items →
      getHeader (createStreamHandler handlers cacheAge cachePublic true t b64 r) (gs "ETag")
          = hexEncode (sha256 (jsonSlice jsonStreamItem items))
        ∧ (r.ifNoneMatch = hexEncode (sha256 (jsonSlice jsonStreamItem items)) →
            (createStreamHandler handlers cacheAge cachePublic true t b64 r).status = 304
            ∧ (createStreamHandler handlers cacheAge cachePublic true t b64 r).body = []))
    ∧ (∀ {α : Type} (handlers : GoStr → Option (CatalogHandlerL α)) (cacheAge : Int)
      (cachePublic : Bool) (t : Option (GoStr → Option α)) (b64 : Bool) (r : Request)
      (hdlr : CatalogHandlerL α) (items : GoSlice MetaPreviewItemL),
      ¬(r.pathType = [] ∨ r.pathId = []) →
      (decodeUserData (requestUserData r) t b64).2 = none →
      handlers r.pathType = some hdlr →
      hdlr (trimSuffix r.pathId (gs ".json")) (decodeUserData (requestUserData r) t b64).1
        = Except.ok items →
      getHeader (createCatalogHandler handlers cacheAge cachePublic true t b64 r) (gs "ETag")
          = hexEncode (sha256 (jsonSlice jsonMetaPreviewItem items))
        ∧ (r.ifNoneMatch = hexEncode (sha256 (jsonSlice jsonMetaPreviewItem items)) →
            (createCatalogHandler handlers cacheAge cachePublic true t b64 r).status = 304
            ∧ (createCatalogHandler handlers cacheAge cachePublic true t b64 r).body = [])) := by
  constructor
  · intro α handlers cacheAge cachePublic t b64 r hdlr items hty hdec hlook hok
    rw [createStreamHandler_ok handlers cacheAge cachePublic true t b64 r hdlr items
      hty hdec hlook hok]
    obtain ⟨h1, h2, _⟩ := cacheEtagEpilogue_props cacheAge cachePublic
      (generateETagStreams items) r.ifNoneMatch
      (jsonObj [(gs "streams", jsonSlice jsonStreamItem items)])
    exact ⟨h1, fun hm => h2 hm⟩
  · intro α handlers cacheAge cachePublic t b64 r hdlr items hty hdec hlook hok
    rw [createCatalogHandler_ok handlers cacheAge cachePublic true t b64 r hdlr items
      hty hdec hlook hok]
    obtain ⟨h1, h2, _⟩ := cacheEtagEpilogue_props cacheAge cachePublic
      (generateETagMetas items) r.ifNoneMatch
      (jsonObj [(gs "metas", jsonSlice jsonMetaPreviewItem items)])
    exact ⟨h1, fun hm => h2 hm⟩

/-- Witness for the amended C5 theorem at the concrete test scenario. -/
theorem c5_amended_etag_from_items_witness :
    getHeader (createStreamHandler sampleStreamHandlers 60 false true none false sampleRequest)
      (gs "ETag") = hexEncode (sha256 (jsonSlice jsonStreamItem (some [sampleStreamItem]))) :=
  (c5_amended_etag_from_items.1 sampleStreamHandlers 60 false none false sampleRequest
    sampleMovieStreamHandler (some [sampleStreamItem]) (by decide) rfl rfl rfl).1

/-- Claim C6: a stream handler returning the not-found sentinel (possibly
wrapped) is answered 404 for every cache configuration; any other handler
error is answered with the constant 500 response, whose body does not
depend on the error value. -/
theorem c6_stream_not_found_404 :
    ∀ {α : Type} (handlers : GoStr → Option (StreamHandlerL α)) (cacheAge : Int)
      (cachePublic handleEtag : Bool) (t : Option (GoStr → Option α)) (b64 : Bool)
      (r : Request) (hdlr : StreamHandlerL α) (e : GoErr),
      ¬(r.pathType = [] ∨ r.pathId = []) →
      (decodeUserData (requestUserData r) t b64).2 = none →
      handlers r.pathType = some hdlr →
      hdlr (trimSuffix r.pathId (gs ".json")) (decodeUserData (requestUserData r) t b64).1
        = Except.error e →
      (errorsIs e ErrNotFound = true →
        createStreamHandler handlers cacheAge cachePublic handleEtag t b64 r
          = httpError (gs "Not found") 404)
      ∧ (errorsIs e ErrNotFound = false →
        createStreamHandler handlers cacheAge cachePublic handleEtag t b64 r
          = httpError (gs "Failed to get streams") 500) := by
  intro α handlers cacheAge cachePublic handleEtag t b64 r hdlr e hty hdec hlook herr
  rw [createStreamHandler_err handlers cacheAge cachePublic handleEtag t b64 r hdlr e
    hty hdec hlook herr]
  constructor <;> intro h <;> simp [h]

/-- Witness for C6: `GET /stream/movie/ttX.json` against the test-scenario
handler is 404 even with public caching and ETag handling enabled. -/
theorem c6_stream_not_found_404_witness :
    createStreamHandler sampleStreamHandlers 60 true true none false notFoundRequest
      = httpError (gs "Not found") 404 :=
  (c6_stream_not_found_404 sampleStreamHandlers 60 true true none false notFoundRequest
    sampleMovieStreamHandler ErrNotFound (by decide) rfl rfl rfl).1 rfl

/-- Claim C7: for manifest requests whose user data decodes, no callback
means 200 with exactly the (captured) manifest as JSON; a callback
returning a status below 400 means 200 with the possibly mutated manifest;
a callback returning 400 or above means exactly that status with the
constant error body and no manifest. -/
theorem c7_manifest_gate :
    ∀ {α : Type} (m : ManifestL) (t : Option (GoStr → Option α)) (b64 : Bool) (r : Request),
      (decodeUserData (requestUserData r) t b64).2 = none →
      createManifestHandler m none t b64 r = (jsonOK [] (jsonManifest m), m)
      ∧ ∀ cb : ManifestCallbackL α,
          ((cb m (decodeUserData (requestUserData r) t b64).1).1 < 400 →
            createManifestHandler m (some cb) t b64 r
              = (jsonOK []
                  (jsonManifest (cb m (decodeUserData (requestUserData r) t b64).1).2),
                 (cb m (decodeUserData (requestUserData r) t b64).1).2))
          ∧ (400 ≤ (cb m (decodeUserData (requestUserData r) t b64).1).1 →
            createManifestHandler m (some cb) t b64 r
              = (httpError (gs "Manifest callback returned error")
                  (cb m (decodeUserData (requestUserData r) t b64).1).1,
                 (cb m (decodeUserData (requestUserData r) t b64).1).2)) := by
  intro α m t b64 r hdec
  rcases hd : decodeUserData (requestUserData r) t b64 with ⟨v, oe⟩
  rw [hd] at hdec
  simp only at hdec
  subst hdec
  refine ⟨by simp [createManifestHandler, hd], fun cb => ⟨fun hlt => ?_, fun hge => ?_⟩⟩
  · have hlt2 : (cb m v).1 < 400 := by simpa using hlt
    simp [createManifestHandler, hd, not_le.mpr hlt2]
  · have hge2 : 400 ≤ (cb m v).1 := by simpa using hge
    simp [createManifestHandler, hd, hge2]

/-- Witness for C7 at the concrete manifest and a request without user data. -/
theorem c7_manifest_gate_witness :
    createManifestHandler (α := Unit) sampleManifest none none false manifestRequest
      = (jsonOK [] (jsonManifest sampleManifest), sampleManifest) :=
  (c7_manifest_gate sampleManifest none false manifestRequest rfl).1

/-- Claim C9: constructing an addon with public caching or ETag handling
enabled while the corresponding cache age is zero fails with a
configuration error — `NewAddon` returns no addon. -/
theorem c9_construction_validation :
    ∀ {κ σ : Type} (manifest : ManifestL) (catalogHandlers : Option κ)
      (streamHandlers : Option σ) (opts : OptionsL),
      ((opts.cachePublicCatalogs ∧ opts.cacheAgeCatalogs = 0)
        ∨ (opts.cachePublicStreams ∧ opts.cacheAgeStreams = 0)
        ∨ (opts.handleEtagCatalogs ∧ opts.cacheAgeCatalogs = 0)
        ∨ (opts.handleEtagStreams ∧ opts.cacheAgeStreams = 0)) →
      ∃ e, newAddon manifest catalogHandlers streamHandlers opts = Except.error e := by
  intro κ σ manifest ch sh opts h
  by_cases hA : (manifest.id = [] ∨ manifest.name = [] ∨ manifest.description = []
      ∨ manifest.version = [])
  · exact ⟨_, by unfold newAddon; rw [if_pos hA]⟩
  by_cases hB : (ch.isNone ∧ sh.isNone)
  · exact ⟨_, by unfold newAddon; rw [if_neg hA, if_pos hB]⟩
  by_cases hC : ((opts.cachePublicCatalogs ∧ opts.cacheAgeCatalogs = 0)
      ∨ (opts.cachePublicStreams ∧ opts.cacheAgeStreams = 0))
  · exact ⟨_, by unfold newAddon; rw [if_neg hA, if_neg hB, if_pos hC]⟩
  by_cases hD : ((opts.handleEtagCatalogs ∧ opts.cacheAgeCatalogs = 0)
      ∨ (opts.handleEtagStreams ∧ opts.cacheAgeStreams = 0))
  · exact ⟨_, by unfold newAddon; rw [if_neg hA, if_neg hB, if_neg hC, if_pos hD]⟩
  exfalso
  rcases h with ⟨h1, h2⟩ | ⟨h1, h2⟩ | ⟨h1, h2⟩ | ⟨h1, h2⟩
  · exact hC (Or.inl ⟨h1, h2⟩)
  · exact hC (Or.inr ⟨h1, h2⟩)
  · exact hD (Or.inl ⟨h1, h2⟩)
  · exact hD (Or.inr ⟨h1, h2⟩)

/-- Witness for C9: public caching for streams with a zero stream cache age
is rejected. -/
theorem c9_construction_validation_witness :
    ∃ e, newAddon (κ := Unit) (σ := Unit) sampleManifest none (some ())
        { cachePublicStreams := true } = Except.error e :=
  c9_construction_validation sampleManifest none (some ())
    { cachePublicStreams := true } (Or.inr (Or.inl ⟨rfl, rfl⟩))

/-- Claim C10: `decodeUserData` returns the nil value exactly when it
returns a non-nil error; on success the value is the empty string exactly
when the input is empty or no type is registered (non-empty data is then
discarded), and otherwise a (non-nil) decoded value of the registered
type. -/
theorem c10_decode_result_shape :
    ∀ {α : Type} (data : GoStr) (t : Option (GoStr → Option α)) (b64 : Bool),
      ((decodeUserData data t b64).1 = GoAny.goNil ↔ (decodeUserData data t b64).2 ≠ none)
      ∧ ((decodeUserData data t b64).2 = none →
          ((data = [] ∨ t = none) ∧ (decodeUserData data t b64).1 = GoAny.emptyString)
          ∨ (data ≠ [] ∧ t ≠ none
              ∧ ∃ v, (decodeUserData data t b64).1 = GoAny.typed v)) := by
  intro α data t b64
  by_cases hd : data = []
  · simp [decodeUserData, hd]
  · cases t with
    | none => simp [decodeUserData, hd]
    | some u =>
      rcases hdec : (if b64 then base64urlNoPadDecode (trimSuffix data (gs "="))
          else pathUnescape data) with _ | bytes
      · simp [decodeUserData, hd, hdec]
      · rcases hu : u bytes with _ | v
        · simp [decodeUserData, hd, hdec, hu]
        · simp [decodeUserData, hd, hdec, hu]

/-- Witness for C10 at a concrete input (non-empty data, no registered type). -/
theorem c10_decode_result_shape_witness :
    ((decodeUserData (gs "abc") (none : Option (GoStr → Option Unit)) false).1 = GoAny.goNil
        ↔ (decodeUserData (gs "abc") (none : Option (GoStr → Option Unit)) false).2 ≠ none)
    ∧ ((decodeUserData (gs "abc") (none : Option (GoStr → Option Unit)) false).2 = none →
        ((gs "abc" = [] ∨ (none : Option (GoStr → Option Unit)) = none)
          ∧ (decodeUserData (gs "abc") (none : Option (GoStr → Option Unit)) false).1
            = GoAny.emptyString)
        ∨ (gs "abc" ≠ [] ∧ (none : Option (GoStr → Option Unit)) ≠ none
            ∧ ∃ v, (decodeUserData (gs "abc") (none : Option (GoStr → Option Unit)) false).1
              = GoAny.typed v)) :=
  c10_decode_result_shape (gs "abc") none false

end GoStremio
